import Mathlib

/-!
Shallow embedding of SublimeJEDI (`sublime_jedi/facade.py`).

The file is a thin facade over the jedi analysis engine.  We embed:

* the Python string manipulations the module performs (`replace`,
  `rsplit` on "=", `lstrip`, `in`, `endswith`, `%`-formatting,
  `', '.join`) as executable functions on `String` / `List Char`;
* the jedi result records the module consumes (`Completion`, `Param`,
  `CallSignature`, `Definition`) as structures holding exactly the fields
  the module reads;
* the engine calls made through `self.script` as a `Script` record whose
  fields are `Except JErr _` values: `Except.error` models the engine call
  raising an exception, which the facade's dispatch boundary catches;
* each method of `JediFacade` as a function in the `Except JErr` monad, and
  the `get` dispatcher as a total function into `Option Result` (the
  `except Exception` boundary turns unknown actions and handler errors
  into `none`).
-/

namespace SublimeJedi

/-! ### Python string primitives -/

/-- Characters stripped by Python's `str.lstrip()` (ASCII whitespace). -/
def isPySpace (c : Char) : Bool :=
  c = ' ' || c = '\t' || c = '\n' || c = '\x0b' || c = '\x0c' || c = '\r'

/-- Python `s.lstrip()` on a character list. -/
def pyLstrip (l : List Char) : List Char :=
  l.dropWhile isPySpace

/-- The characters after the last occurrence of `c`, i.e. Python
`s.rsplit(c, 1)[1]` for a string containing `c` (the callers guard on
containment; on a list without `c` we return `[]`). -/
def rsplitLast (c : Char) : List Char → List Char
  | [] => []
  | a :: rest =>
      if rest.contains c then rsplitLast c rest
      else if a = c then rest
      else rsplitLast c rest

/-- Fuel-driven worker for `pyReplace`; the fuel is the input length, which
bounds the number of recursive steps since every step consumes at least one
character of the input (the patterns used are non-empty). -/
def pyReplaceAux (pat repl : List Char) : Nat → List Char → List Char
  | 0, s => s
  | Nat.succ fuel, s =>
      match s with
      | [] => []
      | a :: rest =>
          if pat.isPrefixOf (a :: rest) then
            repl ++ pyReplaceAux pat repl fuel (List.drop pat.length (a :: rest))
          else
            a :: pyReplaceAux pat repl fuel rest

/-- Python `s.replace(pat, repl)`: replace every non-overlapping occurrence
of `pat`, scanning left to right. -/
def pyReplace (s pat repl : String) : String :=
  String.mk (pyReplaceAux pat.data repl.data s.data.length s.data)

/-- Python `s.endswith(suffix)`. -/
def endswith (s suffix : String) : Bool :=
  suffix.data.isSuffixOf s.data

/-- Python `c in s` for a single character `c`. -/
def pyContainsChar (s : String) (c : Char) : Bool :=
  s.data.contains c

/-! ### jedi result records (fields the facade reads) -/

/-- A jedi completion record: the facade reads `name` and `type`. -/
structure Completion where
  name : String
  type : String
deriving DecidableEq

/-- A jedi call-signature parameter: the facade reads `name` and
`description`. -/
structure Param where
  name : String
  description : String
deriving DecidableEq

/-- A jedi call signature: the facade iterates `params`. -/
structure CallSignature where
  params : List Param
deriving DecidableEq

/-- A jedi definition/usage record: the facade reads `type`,
`module_path`, `line`, `column`, `in_builtin_module()` and
`docstring()`. -/
structure Definition where
  type : String
  module_path : String
  line : Nat
  column : Nat
  in_builtin_module : Bool
  docstring : String
deriving DecidableEq

/-! ### format_completion -/

/-- `format_completion`: display is `name + '\t' + type`, insert is
`name`. -/
def format_completion (complete : Completion) : String × String :=
  (complete.name ++ "\t" ++ complete.type, complete.name)

/-! ### get_function_parameters -/

/-- The body of the `for param in call_signature.params` loop in
`get_function_parameters`: `none` models `continue`, `some pair` models
`params.append(pair)`.  The first guard mirrors Python's precedence:
`(not with_keywords and param.name == "...") or ("*" in param.description)`. -/
def paramStep (with_keywords : Bool) (param : Param) : Option (String × Option String) :=
  if (!with_keywords && param.name == "...") || pyContainsChar param.description '*' then
    none
  else if param.name == "" || param.name == "self" || param.name == "..." then
    none
  else
    let param_description := pyReplace param.description "param " ""
    let is_keyword := pyContainsChar param_description '='
    if is_keyword && with_keywords then
      some (param.name, some (String.mk (pyLstrip (rsplitLast '=' param_description.data))))
    else if is_keyword && !with_keywords then
      none
    else
      some (param.name, none)

/-- `get_function_parameters(call_signature, with_keywords)`: `none` models
a falsy (absent) call signature, which yields `[]`; otherwise the loop over
`call_signature.params` collects the pairs kept by `paramStep`. -/
def get_function_parameters (call_signature : Option CallSignature)
    (with_keywords : Bool) : List (String × Option String) :=
  match call_signature with
  | none => []
  | some cs => cs.params.filterMap (paramStep with_keywords)

/-! ### The engine handle and the facade -/

/-- An exception raised inside the jedi engine. -/
inductive JErr where
  | engineError : String → JErr
deriving DecidableEq

instance {ε α : Type} [DecidableEq ε] [DecidableEq α] : DecidableEq (Except ε α) := fun x y =>
  match x, y with
  | .ok a, .ok b => if h : a = b then .isTrue (by rw [h]) else .isFalse (by simp [h])
  | .error a, .error b => if h : a = b then .isTrue (by rw [h]) else .isFalse (by simp [h])
  | .ok _, .error _ => .isFalse (by simp)
  | .error _, .ok _ => .isFalse (by simp)

/-- The engine operations the facade calls on `self.script`.  Each field
holds the outcome of that call: `Except.ok` its return value,
`Except.error` the exception it raises. -/
structure Script where
  completions : Except JErr (List Completion)
  goto_assignments : Except JErr (List Definition)
  goto_definitions : Except JErr (List Definition)
  usages : Except JErr (List Definition)
  call_signatures : Except JErr (List CallSignature)
deriving DecidableEq

/-- The facade state after `__init__`: the per-request script and the
`auto_complete_function_params` setting. -/
structure JediFacade where
  script : Script
  auto_complete_function_params : String
deriving DecidableEq

/-- The list comprehension shared by `_goto` and `_usages`:
`[(i.module_path, i.line, i.column + 1) for i in definitions if not
i.in_builtin_module()]`. -/
def locEntries (definitions : List Definition) : List (String × Nat × Nat) :=
  (definitions.filter (fun i => !i.in_builtin_module)).map
    (fun i => (i.module_path, i.line, i.column + 1))

namespace JediFacade

/-- `_goto`: resolve assignments; if every definition has type "import"
(vacuously so for an empty list), re-resolve with `goto_definitions`; then
filter built-in-module hits and shift columns to 1-based. -/
def _goto (f : JediFacade) : Except JErr (List (String × Nat × Nat)) := do
  let definitions ← f.script.goto_assignments
  let definitions ←
    if definitions.all (fun d => d.type == "import") then
      f.script.goto_definitions
    else
      pure definitions
  pure (locEntries definitions)

/-- `_usages`: find references, same filter and shape as `_goto`. -/
def _usages (f : JediFacade) : Except JErr (List (String × Nat × Nat)) := do
  let usages ← f.script.usages
  pure (locEntries usages)

/-- `_completion`: regular completions, each passed through
`format_completion`. -/
def _completion (f : JediFacade) : Except JErr (List (String × String)) := do
  let completions ← f.script.completions
  pure (completions.map format_completion)

/-- `_docstring(signature)`: resolve definitions; with none, return
Python's implicit `None`; otherwise the first definition's docstring, or
(for `signature != 0`) its first `"\n\n"`-paragraph with newlines collapsed
and `" = "` tightened to `"="`. -/
def _docstring (f : JediFacade) (signature : Nat) : Except JErr (Option String) := do
  let defs ← f.script.goto_definitions
  match defs with
  | [] => pure none
  | d :: _ =>
      if signature ≠ 0 then
        let calltip_signature := (d.docstring.splitOn "\n\n").headD ""
        pure (some (pyReplace (pyReplace calltip_signature "\n" " ") " = " "="))
      else
        pure (some d.docstring)

/-- The `for index, parameter in enumerate(parameters)` loop of
`_complete_call_assigments`: builds the `(display, snippet)` pairs. -/
def complete_call_build (parameters : List (String × Option String))
    (with_values : Bool) : List (String × String) :=
  parameters.enum.map (fun p =>
    let index := p.1
    let name := p.2.1
    match p.2.2 with
    | some value =>
        if with_values then
          (name ++ "\tparam",
           name ++ "=$\x7b" ++ toString (index + 1) ++ ":" ++ value ++ "\x7d")
        else
          (name ++ "\tparam", "$\x7b" ++ toString (index + 1) ++ ":" ++ name ++ "\x7d")
    | none =>
        (name ++ "\tparam", "$\x7b" ++ toString (index + 1) ++ ":" ++ name ++ "\x7d"))

/-- `_complete_call_assigments`: take `call_signatures()[0]` (an
`IndexError` on an empty list is caught and yields the empty result), then
run `get_function_parameters` and the snippet-building loop. -/
def _complete_call_assigments (f : JediFacade)
    (with_keywords with_values : Bool) : Except JErr (List (String × String)) := do
  let sigs ← f.script.call_signatures
  match sigs with
  | [] => pure []
  | call_definition :: _ =>
      pure (complete_call_build
        (get_function_parameters (some call_definition) with_keywords) with_values)

/-- The value a successful action handler returns. -/
inductive Result where
  | locations : List (String × Nat × Nat) → Result
  | completions : List (String × String) → Result
  | text : Option String → Result
  | snippet : String → Result
deriving DecidableEq

/-- `get_goto`. -/
def get_goto (f : JediFacade) : Except JErr Result :=
  (f._goto).map Result.locations

/-- `get_usages`. -/
def get_usages (f : JediFacade) : Except JErr Result :=
  (f._usages).map Result.locations

/-- `get_funcargs`: both flags driven by
`auto_complete_function_params == 'all'`; joins the snippet components with
`", "`. -/
def get_funcargs (f : JediFacade) : Except JErr Result := do
  let complete_all := f.auto_complete_function_params == "all"
  let call_parameters ← f._complete_call_assigments complete_all complete_all
  pure (Result.snippet (String.intercalate ", " (call_parameters.map (fun p => p.2))))

/-- `get_autocomplete`: call-argument completions (keywords on, values
off) followed by regular completions with `"\tparam"`-labelled entries
filtered out. -/
def get_autocomplete (f : JediFacade) : Except JErr Result := do
  let args ← f._complete_call_assigments true false
  let completion ← f._completion
  pure (Result.completions
    (args ++ completion.filter (fun c => !endswith c.1 "\tparam")))

/-- `get_docstring`. -/
def get_docstring (f : JediFacade) : Except JErr Result :=
  (f._docstring 0).map Result.text

/-- `get_signature`. -/
def get_signature (f : JediFacade) : Except JErr Result :=
  (f._docstring 1).map Result.text

/-- The `getattr(self, 'get_' + action)()` lookup: `none` models the
`AttributeError` raised for an unknown action name. -/
def dispatch (f : JediFacade) (action : String) : Option (Except JErr Result) :=
  if action = "goto" then some f.get_goto
  else if action = "usages" then some f.get_usages
  else if action = "funcargs" then some f.get_funcargs
  else if action = "autocomplete" then some f.get_autocomplete
  else if action = "docstring" then some f.get_docstring
  else if action = "signature" then some f.get_signature
  else none

/-- `get(action)`: the `try/except Exception` boundary.  Both an unknown
action (`AttributeError` from `getattr`) and a handler exception are
caught, logged, and turned into Python's implicit `None`. -/
def get (f : JediFacade) (action : String) : Option Result :=
  match f.dispatch action with
  | some (Except.ok r) => some r
  | some (Except.error _) => none
  | none => none

end JediFacade

/-! ### Concrete fixtures used by witnesses and counterexamples -/

/-- The call signature of the spec example `(self, a, b=5, *args)`, with
the per-parameter descriptions jedi renders (`param <text>`). -/
def sigSelfAB5Args : CallSignature :=
  ⟨[⟨"self", "param self"⟩, ⟨"a", "param a"⟩,
    ⟨"b", "param b=5"⟩, ⟨"args", "param *args"⟩]⟩

/-- A parameter whose description holds two "=" characters, separating the
first-"=" and last-"=" readings of the default value. -/
def paramTwoEq : Param := ⟨"b", "param b=1=2"⟩

/-- An import-classified definition outside the builtins. -/
def defImport : Definition := ⟨"import", "mod.py", 2, 3, false, ""⟩

/-- A plain function definition outside the builtins. -/
def defReal : Definition := ⟨"function", "real.py", 10, 4, false, "doc"⟩

/-- A definition flagged as living in a built-in module. -/
def defBuiltin : Definition := ⟨"function", "builtins.py", 1, 0, true, ""⟩

/-- A script whose engine calls all succeed: one import-classified
assignment target, two definitions (one built-in), one usage, one call
signature. -/
def scriptOk : Script :=
  ⟨Except.ok [⟨"foo", "function"⟩, ⟨"x", "param"⟩],
   Except.ok [defImport],
   Except.ok [defReal, defBuiltin],
   Except.ok [defReal],
   Except.ok [sigSelfAB5Args]⟩

/-- A facade over `scriptOk`. -/
def facadeOk : JediFacade := ⟨scriptOk, "all"⟩

/-- A script whose every engine call raises. -/
def scriptRaising : Script :=
  ⟨Except.error (JErr.engineError "boom"),
   Except.error (JErr.engineError "boom"),
   Except.error (JErr.engineError "boom"),
   Except.error (JErr.engineError "boom"),
   Except.error (JErr.engineError "boom")⟩

/-- A facade over `scriptRaising`. -/
def facadeRaising : JediFacade := ⟨scriptRaising, "all"⟩

/-- A script whose resolve-assignment call returns no definitions at all,
while resolve-definition returns one. -/
def scriptNoAssignments : Script :=
  ⟨Except.ok [],
   Except.ok [],
   Except.ok [defReal],
   Except.ok [],
   Except.ok []⟩

/-- A facade over `scriptNoAssignments`. -/
def facadeNoAssignments : JediFacade := ⟨scriptNoAssignments, "all"⟩

/-! ### Helper lemmas -/

/-- Every element of `locEntries ds` is the shifted triple of a definition
whose built-in flag is off. -/
theorem mem_locEntries {ds : List Definition} {x : String × Nat × Nat}
    (hx : x ∈ locEntries ds) :
    ∃ d ∈ ds, d.in_builtin_module = false ∧
      x = (d.module_path, d.line, d.column + 1) := by
  simp only [locEntries, List.mem_map, List.mem_filter] at hx
  obtain ⟨d, ⟨hd, hb⟩, he⟩ := hx
  exact ⟨d, hd, by simpa using hb, he.symm⟩

/-! ### Claims -/

/-- C9: for every completion item, `format_completion` returns display
`name ++ "\t" ++ type` and insert `name`; it is a total function with no
error path. -/
theorem format_completion_spec (complete : Completion) :
    (format_completion complete).1 = complete.name ++ "\t" ++ complete.type ∧
    (format_completion complete).2 = complete.name :=
  ⟨rfl, rfl⟩

/-- C1: `JediFacade.get` never raises: an unknown action (no handler found
by the `getattr` lookup) and a handler that raises are both caught at the
dispatch boundary, and the call returns `none`. -/
theorem get_dispatch_never_raises (f : JediFacade) (action : String) :
    (JediFacade.dispatch f action = none → JediFacade.get f action = none) ∧
    (∀ e : JErr, JediFacade.dispatch f action = some (Except.error e) →
      JediFacade.get f action = none) := by
  constructor
  · intro h
    simp [JediFacade.get, h]
  · intro e h
    simp [JediFacade.get, h]

theorem get_dispatch_never_raises_witness :
    JediFacade.get facadeRaising "goto" = none ∧
    JediFacade.get facadeOk "frobnicate" = none :=
  ⟨(get_dispatch_never_raises facadeRaising "goto").2
      (JErr.engineError "boom") (by decide),
   (get_dispatch_never_raises facadeOk "frobnicate").1 (by decide)⟩

/-- C2 counterexample: on the spec example signature `(self, a, b=5,
*args)` with keywords off, the code skips the defaulted parameter `b`
entirely, so the output is `[("a", none)]` and not the claimed
`[("a", none), ("b", none)]`. -/
theorem funcparams_example_nokw_counterexample :
    get_function_parameters (some sigSelfAB5Args) false = [("a", none)] ∧
    get_function_parameters (some sigSelfAB5Args) false ≠
      [("a", (none : Option String)), ("b", none)] := by
  decide

/-- C2 amended: on the spec example signature `(self, a, b=5, *args)` with
keywords off, `get_function_parameters` returns `[("a", none)]`: the
defaulted parameter `b` is skipped entirely (as is `*args`). -/
theorem funcparams_example_nokw :
    get_function_parameters (some sigSelfAB5Args) false = [("a", none)] := by
  decide

/-- C3 counterexample: for a parameter whose description holds two "="
characters, the code takes the text after the LAST "=" (Python
`rsplit` with maxsplit 1), not after the first as claimed: on description
`param b=1=2` the value component is `2`, not `1=2`. -/
theorem default_value_first_eq_counterexample :
    get_function_parameters (some ⟨[paramTwoEq]⟩) true = [("b", some "2")] ∧
    (some "2" : Option String) ≠ some "1=2" := by
  decide

/-- C3 amended: with keywords on, a kept parameter whose description (with
occurrences of `param ` removed) holds a "=" contributes the pair of its
name and the text after the LAST "=" of that description, leading
whitespace stripped; in particular the example signature
`(self, a, b=5, *args)` yields `[("a", none), ("b", some "5")]`. -/
theorem default_value_last_eq :
    (∀ p : Param, pyContainsChar p.description '*' = false →
      p.name ≠ "" → p.name ≠ "self" → p.name ≠ "..." →
      pyContainsChar (pyReplace p.description "param " "") '=' = true →
      paramStep true p = some (p.name,
        some (String.mk (pyLstrip (rsplitLast '='
          (pyReplace p.description "param " "").data))))) ∧
    get_function_parameters (some sigSelfAB5Args) true =
      [("a", none), ("b", some "5")] := by
  constructor
  · intro p h1 h2 h3 h4 h5
    simp [paramStep, h1, h2, h3, h4, h5]
  · decide

theorem default_value_last_eq_witness :
    paramStep true ⟨"b", "param b=5"⟩ = some ("b",
      some (String.mk (pyLstrip (rsplitLast '='
        (pyReplace "param b=5" "param " "").data)))) :=
  default_value_last_eq.1 ⟨"b", "param b=5"⟩
    (by decide) (by decide) (by decide) (by decide) (by decide)

/-- Helper: binding an `Except.ok` value applies the continuation. -/
theorem ok_bind {ε α β : Type} (a : α) (f : α → Except ε β) :
    (Except.ok a : Except ε α) >>= f = f a := rfl

/-- C4: when every definition returned by `goto_assignments` has type
"import", `_goto` re-resolves with `goto_definitions` and returns those
results, shifted and filtered through the built-in-module filter. -/
theorem goto_import_fallback (f : JediFacade) (defs defs2 : List Definition)
    (h1 : f.script.goto_assignments = Except.ok defs)
    (h2 : defs.all (fun d => d.type == "import") = true)
    (h3 : f.script.goto_definitions = Except.ok defs2) :
    f._goto = Except.ok (locEntries defs2) := by
  unfold JediFacade._goto
  rw [h1, ok_bind, if_pos h2, h3, ok_bind]
  rfl

theorem goto_import_fallback_witness :
    facadeOk._goto = Except.ok (locEntries [defReal, defBuiltin]) :=
  goto_import_fallback facadeOk [defImport] [defReal, defBuiltin]
    (by decide) (by decide) (by decide)

/-- C10: when `goto_assignments` returns no definitions at all, the
all-imports test is vacuously true, so `_goto` falls back to
`goto_definitions` and returns those results. -/
theorem goto_empty_fallback (f : JediFacade) (defs2 : List Definition)
    (h1 : f.script.goto_assignments = Except.ok [])
    (h2 : f.script.goto_definitions = Except.ok defs2) :
    f._goto = Except.ok (locEntries defs2) := by
  unfold JediFacade._goto
  rw [h1, ok_bind, if_pos (by decide), h2, ok_bind]
  rfl

theorem goto_empty_fallback_witness :
    facadeNoAssignments._goto = Except.ok (locEntries [defReal]) :=
  goto_empty_fallback facadeNoAssignments [defReal] (by decide) (by decide)

/-- Helper: binding an `Except.error` value keeps the error. -/
theorem error_bind {ε α β : Type} (e : ε) (f : α → Except ε β) :
    (Except.error e : Except ε α) >>= f = Except.error e := rfl

/-- Helper: `pure` on `Except` is `Except.ok`. -/
theorem pure_eq_ok {ε α : Type} (a : α) : (pure a : Except ε α) = Except.ok a := rfl

/-- C5: a successful `_goto` or `_usages` result is exactly `locEntries`
of a definition list the engine returned (its flag-false entries mapped to
1-based-column triples, flag-true entries dropped), and every element of
it is the shifted triple of a member of that returned list whose
built-in-module flag is off. -/
theorem goto_usages_output_shape (f : JediFacade) (res : List (String × Nat × Nat))
    (h : f._goto = Except.ok res ∨ f._usages = Except.ok res) :
    ∃ ds : List Definition,
      (f.script.goto_assignments = Except.ok ds ∨
       f.script.goto_definitions = Except.ok ds ∨
       f.script.usages = Except.ok ds) ∧
      res = locEntries ds ∧
      ∀ x ∈ res, ∃ d ∈ ds, d.in_builtin_module = false ∧
        x = (d.module_path, d.line, d.column + 1) := by
  rcases h with h | h
  · unfold JediFacade._goto at h
    cases ha : f.script.goto_assignments with
    | error e =>
      rw [ha, error_bind] at h
      exact absurd h (by simp)
    | ok defs =>
      simp only [ha, ok_bind] at h
      by_cases hall : (defs.all fun d => d.type == "import") = true
      · rw [if_pos hall] at h
        cases hd : f.script.goto_definitions with
        | error e =>
          rw [hd, error_bind] at h
          exact absurd h (by simp)
        | ok defs2 =>
          simp only [hd, ok_bind] at h
          have he : locEntries defs2 = res := by simpa [pure_eq_ok] using h
          exact ⟨defs2, Or.inr (Or.inl rfl), he.symm,
            fun x hx => mem_locEntries (he ▸ hx)⟩
      · rw [if_neg hall] at h
        have he : locEntries defs = res := by simpa [pure_eq_ok, ok_bind] using h
        exact ⟨defs, Or.inl rfl, he.symm, fun x hx => mem_locEntries (he ▸ hx)⟩
  · unfold JediFacade._usages at h
    cases hu : f.script.usages with
    | error e =>
      rw [hu, error_bind] at h
      exact absurd h (by simp)
    | ok us =>
      simp only [hu, ok_bind] at h
      have he : locEntries us = res := by simpa [pure_eq_ok] using h
      exact ⟨us, Or.inr (Or.inr rfl), he.symm, fun x hx => mem_locEntries (he ▸ hx)⟩

theorem goto_usages_output_shape_witness :
    ∃ ds : List Definition,
      (facadeOk.script.goto_assignments = Except.ok ds ∨
       facadeOk.script.goto_definitions = Except.ok ds ∨
       facadeOk.script.usages = Except.ok ds) ∧
      [(("real.py", 10, 5) : String × Nat × Nat)] = locEntries ds ∧
      ∀ x ∈ [(("real.py", 10, 5) : String × Nat × Nat)], ∃ d ∈ ds,
        d.in_builtin_module = false ∧ x = (d.module_path, d.line, d.column + 1) :=
  goto_usages_output_shape facadeOk [("real.py", 10, 5)] (Or.inl (by decide))

/-- C6: a successful `get_autocomplete` result is the call-argument
completions (keywords on, values off) followed by the regular completions
with every entry whose display label ends in `"\tparam"` removed; no kept
regular-completion entry carries that suffix. -/
theorem autocomplete_merge (f : JediFacade) (res : List (String × String))
    (h : f.get_autocomplete = Except.ok (JediFacade.Result.completions res)) :
    ∃ args comps,
      f._complete_call_assigments true false = Except.ok args ∧
      f._completion = Except.ok comps ∧
      res = args ++ comps.filter (fun c => !endswith c.1 "\tparam") ∧
      ∀ c ∈ comps.filter (fun c => !endswith c.1 "\tparam"),
        endswith c.1 "\tparam" = false := by
  unfold JediFacade.get_autocomplete at h
  cases hc : f._complete_call_assigments true false with
  | error e =>
    rw [hc, error_bind] at h
    exact absurd h (by simp)
  | ok args =>
    simp only [hc, ok_bind] at h
    cases hm : f._completion with
    | error e =>
      rw [hm, error_bind] at h
      exact absurd h (by simp)
    | ok comps =>
      simp only [hm, ok_bind, pure_eq_ok, Except.ok.injEq,
        JediFacade.Result.completions.injEq] at h
      refine ⟨args, comps, rfl, rfl, h.symm, ?_⟩
      intro c hcmem
      simp only [List.mem_filter] at hcmem
      simpa using hcmem.2

theorem autocomplete_merge_witness :
    ∃ args comps,
      facadeOk._complete_call_assigments true false = Except.ok args ∧
      facadeOk._completion = Except.ok comps ∧
      [("a\tparam", "$\x7b1:a\x7d"), ("b\tparam", "$\x7b2:b\x7d"),
        ("foo\tfunction", "foo")] =
        args ++ comps.filter (fun c => !endswith c.1 "\tparam") ∧
      ∀ c ∈ comps.filter (fun c => !endswith c.1 "\tparam"),
        endswith c.1 "\tparam" = false :=
  autocomplete_merge facadeOk
    [("a\tparam", "$\x7b1:a\x7d"), ("b\tparam", "$\x7b2:b\x7d"),
      ("foo\tfunction", "foo")] (by decide)

/-- C7: the snippet-building loop maps the parameter at 0-based position
`i` to display `name ++ "\tparam"` and insert `name=$\x7bi+1:value\x7d`
when a default value exists and values are on, and `$\x7bi+1:name\x7d`
otherwise; in particular `[("a", none), ("b", some "5")]` with values on
produces the two spec-example snippets. -/
theorem call_snippet_build :
    (∀ (ps : List (String × Option String)) (i : Nat) (name value : String),
      ps[i]? = some (name, some value) →
      (JediFacade.complete_call_build ps true)[i]? =
        some (name ++ "\tparam",
          name ++ "=$\x7b" ++ toString (i + 1) ++ ":" ++ value ++ "\x7d")) ∧
    (∀ (ps : List (String × Option String)) (i : Nat) (name value : String),
      ps[i]? = some (name, some value) →
      (JediFacade.complete_call_build ps false)[i]? =
        some (name ++ "\tparam",
          "$\x7b" ++ toString (i + 1) ++ ":" ++ name ++ "\x7d")) ∧
    (∀ (ps : List (String × Option String)) (wv : Bool) (i : Nat) (name : String),
      ps[i]? = some (name, none) →
      (JediFacade.complete_call_build ps wv)[i]? =
        some (name ++ "\tparam",
          "$\x7b" ++ toString (i + 1) ++ ":" ++ name ++ "\x7d")) ∧
    JediFacade.complete_call_build [("a", none), ("b", some "5")] true =
      [("a\tparam", "$\x7b1:a\x7d"), ("b\tparam", "b=$\x7b2:5\x7d")] := by
  refine ⟨?_, ?_, ?_, by decide⟩
  · intro ps i name value h
    simp [JediFacade.complete_call_build, List.getElem?_map, List.getElem?_enum, h]
  · intro ps i name value h
    simp [JediFacade.complete_call_build, List.getElem?_map, List.getElem?_enum, h]
  · intro ps wv i name h
    simp [JediFacade.complete_call_build, List.getElem?_map, List.getElem?_enum, h]

theorem call_snippet_build_witness :
    (JediFacade.complete_call_build [("b", some "5")] true)[0]? =
      some ("b" ++ "\tparam",
        "b" ++ "=$\x7b" ++ toString (0 + 1) ++ ":" ++ "5" ++ "\x7d") :=
  call_snippet_build.1 [("b", some "5")] 0 "b" "5" (by decide)

/-- C8: with keywords off, no pair returned by `get_function_parameters`
has a value component, and a parameter whose description holds a `*` is
skipped by the loop. -/
theorem funcparams_nokw_filter :
    (∀ (cs : Option CallSignature) (pr : String × Option String),
      pr ∈ get_function_parameters cs false → pr.2 = none) ∧
    (∀ p : Param, pyContainsChar p.description '*' = true →
      paramStep false p = none) := by
  constructor
  · intro cs pr hpr
    cases cs with
    | none => simp [get_function_parameters] at hpr
    | some c =>
      simp only [get_function_parameters, List.mem_filterMap] at hpr
      obtain ⟨p, _, hp⟩ := hpr
      unfold paramStep at hp
      split at hp
      · exact absurd hp (by simp)
      · split at hp
        · exact absurd hp (by simp)
        · simp only [Bool.and_false, Bool.not_false, Bool.and_true, if_false] at hp
          split at hp
          · simp_all
          · split at hp
            · exact absurd hp (by simp)
            · rw [Option.some_inj] at hp
              rw [← hp]
  · intro p h
    unfold paramStep
    rw [if_pos]
    simp [h]

theorem funcparams_nokw_filter_witness :
    ((("a", (none : Option String)) : String × Option String).2 = none) ∧
    paramStep false ⟨"args", "param *args"⟩ = none :=
  ⟨funcparams_nokw_filter.1 (some sigSelfAB5Args) ("a", none) (by decide),
   funcparams_nokw_filter.2 ⟨"args", "param *args"⟩ (by decide)⟩

end SublimeJedi
